import Mathlib

/-!
Verification of the peer-address / handshake-packet codec
(src/lib/netaddress.js, src/lib/packets.js).

Shallow embedding conventions:
* Byte buffers are `List Nat` (each entry a byte value; wire bytes are
  always reduced mod 256 where the JS `Buffer` would coerce).
* The byte writer is pure list concatenation; the byte reader consumes a
  `List Nat` and returns `Option (value × rest)`, `none` modelling the
  reader primitive's out-of-bounds exception.
* JavaScript numbers occurring as untrusted inputs are `Int` (they may be
  negative); validated stored fields are `Nat`.
* Fallible operations (those guarded by `assert` in the source) return
  `Option`; `none` models the thrown assertion.
* The external IP-utility collaborator (the `binet` library, not part of
  this repository) is an abstract record of operations `IPLib`; every
  result is universally quantified over it.  Its classification
  predicates, string conversions and the `networks` tag constants are
  exactly the operations netaddress.js invokes on it.
-/

/-- Model of an untyped JavaScript value as supplied in an options or JSON
object: the cases netaddress.js actually branches on. -/
inductive JSVal where
  | str : String → JSVal
  | num : Int → JSVal
  | buf : List Nat → JSVal
  | bool : Bool → JSVal
  | null : JSVal
deriving DecidableEq

/-- JavaScript truthiness of a `JSVal` (`if (options.services)` etc.). -/
def JSVal.truthy : JSVal → Bool
  | .str s => s ≠ ""
  | .num n => n ≠ 0
  | .buf _ => true
  | .bool b => b
  | .null => false

/-- The `IP.networks` tag constants used by `groupKey`. -/
structure Networks where
  NONE : Nat
  INET4 : Nat
  INET6 : Nat
  ONION : Nat

/-- Abstract interface of the external IP-utility collaborator (`binet`):
exactly the operations netaddress.js calls on `IP`. -/
structure IPLib where
  toBuffer : String → List Nat
  toString : List Nat → String
  toHostname : String → Nat → List Nat → String
  isIPv4 : List Nat → Bool
  isRFC3964 : List Nat → Bool
  isRFC4380 : List Nat → Bool
  isRFC6052 : List Nat → Bool
  isRFC6145 : List Nat → Bool
  isLocal : List Nat → Bool
  isRoutable : List Nat → Bool
  isOnion : List Nat → Bool
  ZERO_IPV4 : List Nat
  networks : Networks

/-- Constant `ZERO_KEY = Buffer.alloc(33, 0x00)` (netaddress.js line 21). -/
def ZERO_KEY : List Nat := List.replicate 33 0

/-- The `NetAddress` record (netaddress.js class fields). -/
structure NetAddress where
  host : String
  port : Nat
  services : Nat
  time : Nat
  hostname : String
  raw : List Nat
  key : List Nat
deriving DecidableEq

/-- An options / JSON object with the five fields `fromOptions` and
`fromJSON` inspect; a field the caller omitted is `JSVal.null`. -/
structure JSObj where
  host : JSVal
  port : JSVal
  services : JSVal
  time : JSVal
  key : JSVal

/-! Byte-level primitives (the `bufio` reader/writer operations the codec
uses, modelled on little-endian fixed-width integers per the wire spec). -/

/-- Little-endian encoding of `n` on `k` bytes (the writer truncates to
the field width exactly as the JS buffer coerces). -/
def natToLE : Nat → Nat → List Nat
  | 0, _ => []
  | k + 1, n => (n % 256) :: natToLE k (n / 256)

/-- Little-endian value of a byte list. -/
def leToNat (l : List Nat) : Nat := l.foldr (fun b acc => b + 256 * acc) 0

/-- Reader primitive `readBytes n`: `none` when fewer than `n` bytes
remain (bufio throws on out-of-bounds). -/
def readBytesN (n : Nat) (l : List Nat) : Option (List Nat × List Nat) :=
  if n ≤ l.length then some (l.take n, l.drop n) else none

/-- Reader primitive `readU8`. -/
def readU8 (l : List Nat) : Option (Nat × List Nat) :=
  match l with
  | [] => none
  | b :: r => some (b, r)

/-- Reader primitive `readU16` (little-endian). -/
def readU16 (l : List Nat) : Option (Nat × List Nat) :=
  (readBytesN 2 l).map (fun p => (leToNat p.1, p.2))

/-- Reader primitive `readU32` (little-endian). -/
def readU32 (l : List Nat) : Option (Nat × List Nat) :=
  (readBytesN 4 l).map (fun p => (leToNat p.1, p.2))

/-- Reader primitive `readU64` (little-endian). -/
def readU64 (l : List Nat) : Option (Nat × List Nat) :=
  (readBytesN 8 l).map (fun p => (leToNat p.1, p.2))

/-- Reader primitive `seek n`: skip `n` bytes. -/
def seekN (n : Nat) (l : List Nat) : Option (List Nat) :=
  (readBytesN n l).map (fun p => p.2)

/-- Hex digit character for a value below 16 (lowercase, as JS
`toString('hex')` produces). -/
def hexDig (n : Nat) : Char :=
  if n < 10 then Char.ofNat (48 + n) else Char.ofNat (87 + n)

/-- Hex encoding of a byte list (`buffer.toString('hex')`). -/
def hexEncodeChars : List Nat → List Char
  | [] => []
  | b :: rest => hexDig (b % 256 / 16) :: hexDig (b % 16) :: hexEncodeChars rest

/-- Hex encoding of a byte list as a string. -/
def hexEncode (b : List Nat) : String := String.mk (hexEncodeChars b)

/-- Value of a hex digit character, `none` for a non-hex character. -/
def hexVal (c : Char) : Option Nat :=
  if 48 ≤ c.toNat ∧ c.toNat ≤ 57 then some (c.toNat - 48)
  else if 97 ≤ c.toNat ∧ c.toNat ≤ 102 then some (c.toNat - 87)
  else if 65 ≤ c.toNat ∧ c.toNat ≤ 70 then some (c.toNat - 55)
  else none

/-- Hex decoding (`Buffer.from(s, 'hex')`): decodes byte pairs, stopping
at the first invalid pair or odd trailing digit, as Node does. -/
def hexDecodeChars : List Char → List Nat
  | c1 :: c2 :: rest =>
    match hexVal c1, hexVal c2 with
    | some v1, some v2 => (16 * v1 + v2) :: hexDecodeChars rest
    | _, _ => []
  | _ => []

/-- Hex decoding of a string. -/
def hexDecode (s : String) : List Nat := hexDecodeChars s.data

/-- ASCII encoding of a string (`bw.writeString(s, 'ascii')`): one byte
per UTF-16 unit, coerced mod 256 as the JS buffer write does. -/
def asciiEncode (s : String) : List Nat := s.data.map (fun c => c.toNat % 256)

/-- ASCII decoding of bytes (`br.readString(n, 'ascii')`): Node's `ascii`
decoder clears the high bit of every byte. -/
def asciiDecode (b : List Nat) : String :=
  String.mk (b.map (fun x => Char.ofNat (x % 128)))

/-! NetAddress operations (netaddress.js). -/

/-- Constructor defaults (netaddress.js lines 69-82, before the optional
`fromOptions` call). -/
def NetAddress.init (ip : IPLib) : NetAddress :=
  { host := "0.0.0.0", port := 0, services := 0, time := 0,
    hostname := "0.0.0.0:0", raw := ip.ZERO_IPV4, key := ZERO_KEY }

/-- Helper for `fromOptions`: `if (options.x) { assert(typeof x === 'number'); this.x = x }`.
`none` models the assertion failure on a truthy non-number. -/
def optNumField (cur : Nat) (v : JSVal) : Option Nat :=
  if v.truthy then
    match v with
    | .num s => some s.toNat
    | _ => none
  else some cur

/-- Helper for `fromOptions`: `if (options.key) { assert(isBuffer && length 33); this.key = key }`. -/
def optKeyField (cur : List Nat) (v : JSVal) : Option (List Nat) :=
  if v.truthy then
    match v with
    | .buf k => if k.length = 33 then some k else none
    | _ => none
  else some cur

/-- `NetAddress#fromOptions` (netaddress.js lines 89-122): asserts host is
a string, port is a number in 0..65535; recomputes raw/host; optionally
takes services, time and a 33-byte key; recomputes hostname. -/
def NetAddress.fromOptions (ip : IPLib) (a : NetAddress) (o : JSObj) :
    Option NetAddress :=
  match o.host, o.port with
  | .str h, .num p =>
    if 0 ≤ p ∧ p ≤ 65535 then
      let raw := ip.toBuffer h
      let host := ip.toString raw
      match optNumField a.services o.services, optNumField a.time o.time,
            optKeyField a.key o.key with
      | some services, some time, some key =>
        some { host, port := p.toNat, services, time,
               hostname := ip.toHostname host p.toNat key, raw, key }
      | _, _, _ => none
    else none
  | _, _ => none

/-- `NetAddress#hasKey` (netaddress.js lines 238-240). -/
def NetAddress.hasKey (a : NetAddress) : Bool := a.key ≠ ZERO_KEY

/-- `Buffer.compare` on byte lists: lexicographic, -1/0/1. -/
def bufCompare : List Nat → List Nat → Int
  | [], [] => 0
  | [], _ :: _ => -1
  | _ :: _, [] => 1
  | a :: as, b :: bs => if a < b then -1 else if b < a then 1 else bufCompare as bs

/-- `NetAddress#compare` (netaddress.js lines 258-265). -/
def NetAddress.compare (a b : NetAddress) : Int :=
  let cmp := bufCompare a.raw b.raw
  if cmp ≠ 0 then cmp else (a.port : Int) - (b.port : Int)

/-- `NetAddress#equal` (netaddress.js lines 248-250). -/
def NetAddress.equal (a b : NetAddress) : Bool := NetAddress.compare a b == 0

/-- `NetAddress#setNull` (netaddress.js lines 290-295). -/
def NetAddress.setNull (ip : IPLib) (a : NetAddress) : NetAddress :=
  { a with raw := ip.ZERO_IPV4, host := "0.0.0.0", key := ZERO_KEY,
           hostname := ip.toHostname "0.0.0.0" a.port ZERO_KEY }

/-- `NetAddress#setHost` (netaddress.js lines 302-306). -/
def NetAddress.setHost (ip : IPLib) (a : NetAddress) (host : String) : NetAddress :=
  let raw := ip.toBuffer host
  let h := ip.toString raw
  { a with raw, host := h, hostname := ip.toHostname h a.port a.key }

/-- `NetAddress#setPort` (netaddress.js lines 313-317): asserts
`port >= 0 && port <= 0xffff`. -/
def NetAddress.setPort (ip : IPLib) (a : NetAddress) (port : Int) : Option NetAddress :=
  if 0 ≤ port ∧ port ≤ 65535 then
    some { a with port := port.toNat,
                  hostname := ip.toHostname a.host port.toNat a.key }
  else none

/-- `NetAddress#setKey` (netaddress.js lines 324-332): `null` resets to
the zero sentinel; otherwise asserts a 33-byte buffer. -/
def NetAddress.setKey (ip : IPLib) (a : NetAddress) (key : Option (List Nat)) :
    Option NetAddress :=
  let k := key.getD ZERO_KEY
  if k.length = 33 then
    some { a with key := k, hostname := ip.toHostname a.host a.port k }
  else none

/-- `NetAddress#fromHost` (netaddress.js lines 359-373): asserts the port
range and, when a key is supplied, that it has 33 bytes; stamps
`DEFAULT_SERVICES` (= 0) and the current time. -/
def NetAddress.fromHost (ip : IPLib) (now : Nat) (host : String) (port : Int)
    (key : Option (List Nat)) : Option NetAddress :=
  if 0 ≤ port ∧ port ≤ 65535 ∧ (key = none ∨ (key.getD []).length = 33) then
    let raw := ip.toBuffer host
    let h := ip.toString raw
    let k := key.getD ZERO_KEY
    some { host := h, port := port.toNat, services := 0, time := now,
           hostname := ip.toHostname h port.toNat k, raw, key := k }
  else none

/-- `NetAddress#getSize` (netaddress.js lines 443-445): constant 88. -/
def NetAddress.getSize (_ : NetAddress) : Nat := 88

/-- `NetAddress#write` (netaddress.js lines 453-463): time(8) ·
services(4) · reserved(4,zero) · discriminant(1,zero) · raw(16) ·
reserved(20,zero) · port(2) · key(33). -/
def NetAddress.write (a : NetAddress) : List Nat :=
  natToLE 8 a.time ++ natToLE 4 a.services ++ natToLE 4 0 ++ [0] ++
  a.raw ++ List.replicate 20 0 ++ natToLE 2 a.port ++ a.key

/-- `NetAddress#read` (netaddress.js lines 471-494): reads the fields in
write order, branching on the discriminant byte, then rederives host and
hostname.  All seven fields are assigned, so the pre-existing record does
not influence the result. -/
def NetAddress.read (ip : IPLib) (data : List Nat) :
    Option (NetAddress × List Nat) := do
  let (time, r) ← readU64 data
  let (services, r) ← readU32 r
  let (_, r) ← readU32 r
  let (disc, r) ← readU8 r
  let (raw, r) ←
    if disc = 0 then do
      let (raw, r) ← readBytesN 16 r
      let r ← seekN 20 r
      pure (raw, r)
    else do
      let r ← seekN 36 r
      pure (List.replicate 16 0, r)
  let (port, r) ← readU16 r
  let (key, r) ← readBytesN 33 r
  let host := ip.toString raw
  pure ({ host, port, services, time,
          hostname := ip.toHostname host port key, raw, key }, r)

/-- `NetAddress.decode` (bio.Struct: construct a default record, `read`
into it, ignore trailing bytes; `read` assigns every field). -/
def NetAddress.decode (ip : IPLib) (data : List Nat) : Option NetAddress :=
  (NetAddress.read ip data).map (fun p => p.1)

/-- `NetAddress#getJSON` (netaddress.js lines 501-509): key hex-encoded. -/
def NetAddress.getJSON (a : NetAddress) : JSObj :=
  { host := .str a.host, port := .num a.port, services := .num a.services,
    time := .num a.time, key := .str (hexEncode a.key) }

/-- `NetAddress#fromJSON` (netaddress.js lines 517-530): asserts
`(port & 0xffff) === port`, `(services >>> 0) === services`,
`(time >>> 0) === time` and that key is a string; then rebuilds the
record, decoding the key from hex with no length check.  The host must be
a string to satisfy the collaborator precondition of `IP.toBuffer`
(binet's own assert); fromJSON itself performs no host check. -/
def NetAddress.fromJSON (ip : IPLib) (j : JSObj) : Option NetAddress :=
  match j.port, j.services, j.time, j.key with
  | .num p, .num s, .num t, .str k =>
    if 0 ≤ p ∧ p ≤ 65535 ∧ 0 ≤ s ∧ s < 2 ^ 32 ∧ 0 ≤ t ∧ t < 2 ^ 32 then
      match j.host with
      | .str h =>
        some { host := h, port := p.toNat, services := s.toNat,
               time := t.toNat, raw := ip.toBuffer h, key := hexDecode k,
               hostname := ip.toHostname h p.toNat (hexDecode k) }
      | _ => none
    else none
  | _, _, _, _ => none

/-! Group-key classification (netaddress.js lines 573-630). -/

/-- Whole-byte copy loop of `groupKey`, counted by remaining whole bytes:
`groupBitsGo raw n start rem` copies `n` bytes from `start` and then, if
`rem > 0`, appends `raw[start'] | ((1 << (8 - rem)) - 1)`. -/
def groupBitsGo (raw : List Nat) : Nat → Nat → Nat → List Nat
  | 0, start, rem =>
    if 0 < rem then [raw.getD start 0 ||| ((1 <<< (8 - rem)) - 1)] else []
  | n + 1, start, rem => raw.getD start 0 :: groupBitsGo raw n (start + 1) rem

/-- Body bytes of a group key: the `while (bits >= 8)` loop copies
`bits / 8` whole bytes, the final `if (bits > 0)` ORs the low
`8 - bits % 8` bits of the next byte with ones. -/
def groupBits (raw : List Nat) (start bits : Nat) : List Nat :=
  groupBitsGo raw (bits / 8) start (bits % 8)

/-- Output assembly of `groupKey`: type tag byte followed by the copied
group bits. -/
def groupOut (raw : List Nat) (type start bits : Nat) : List Nat :=
  type :: groupBits raw start bits

/-- `groupKey` (netaddress.js lines 573-630): branch priority is local,
unroutable, IPv4/RFC6145/RFC6052, RFC3964, RFC4380 (special 3-byte
return), onion, the 0x20,0x01,0x04,0x70 provider block, default IPv6. -/
def groupKey (ip : IPLib) (addr : NetAddress) : List Nat :=
  let raw := addr.raw
  if ip.isLocal raw then
    groupOut raw 255 0 0
  else if !ip.isRoutable raw then
    groupOut raw ip.networks.NONE 0 0
  else if ip.isIPv4 raw || ip.isRFC6145 raw || ip.isRFC6052 raw then
    groupOut raw ip.networks.INET4 12 16
  else if ip.isRFC3964 raw then
    groupOut raw ip.networks.INET4 2 16
  else if ip.isRFC4380 raw then
    [ip.networks.INET4, raw.getD 12 0 ^^^ 0xff, raw.getD 13 0 ^^^ 0xff]
  else if ip.isOnion raw then
    groupOut raw ip.networks.ONION 6 4
  else if raw.getD 0 0 == 0x20 && raw.getD 1 0 == 0x01 &&
          raw.getD 2 0 == 0x04 && raw.getD 3 0 == 0x70 then
    groupOut raw ip.networks.INET6 0 36
  else
    groupOut raw ip.networks.INET6 0 32

/-- `NetAddress#getGroup` (netaddress.js lines 282-284). -/
def NetAddress.getGroup (ip : IPLib) (a : NetAddress) : List Nat := groupKey ip a

/-! Packet module (packets.js). -/

/-- The `common` constant object of packets.js (lines 11-14): it defines
only `PROTOCOL_VERSION` and `LOCAL_SERVICES`; the `ZERO_NONCE` and
`USER_AGENT` properties the VersionPacket constructor dereferences are
absent. -/
def common : List (String × Nat) :=
  [("PROTOCOL_VERSION", 70015), ("LOCAL_SERVICES", 0)]

/-- `exports.types` (packets.js lines 25-60): name → code. -/
def types : List (String × Nat) :=
  [("VERSION", 0), ("VERACK", 1), ("PING", 2), ("PONG", 3), ("GETADDR", 4),
   ("ADDR", 5), ("INV", 6), ("GETDATA", 7), ("NOTFOUND", 8), ("GETBLOCKS", 9),
   ("GETHEADERS", 10), ("HEADERS", 11), ("SENDHEADERS", 12), ("BLOCK", 13),
   ("TX", 14), ("REJECT", 15), ("MEMPOOL", 16), ("FILTERLOAD", 17),
   ("FILTERADD", 18), ("FILTERCLEAR", 19), ("MERKLEBLOCK", 20),
   ("FEEFILTER", 21), ("SENDCMPCT", 22), ("CMPCTBLOCK", 23),
   ("GETBLOCKTXN", 24), ("BLOCKTXN", 25), ("GETPROOF", 26), ("PROOF", 27),
   ("CLAIM", 28), ("AIRDROP", 29), ("UNKNOWN", 30), ("INTERNAL", 31),
   ("DATA", 32)]

/-- `exports.typesByVal` (packets.js lines 70-105): code → name. -/
def typesByVal : List String :=
  ["VERSION", "VERACK", "PING", "PONG", "GETADDR", "ADDR", "INV", "GETDATA",
   "NOTFOUND", "GETBLOCKS", "GETHEADERS", "HEADERS", "SENDHEADERS", "BLOCK",
   "TX", "REJECT", "MEMPOOL", "FILTERLOAD", "FILTERADD", "FILTERCLEAR",
   "MERKLEBLOCK", "FEEFILTER", "SENDCMPCT", "CMPCTBLOCK", "GETBLOCKTXN",
   "BLOCKTXN", "GETPROOF", "PROOF", "CLAIM", "AIRDROP", "UNKNOWN",
   "INTERNAL", "DATA"]

/-- Registry lookup name → code (`types[name]`). -/
def codeOf (name : String) : Option Nat := types.lookup name

/-- Registry lookup code → name (`typesByVal[code]`). -/
def nameOf (code : Nat) : Option String := typesByVal.get? code

/-- The `VersionPacket` fields (packets.js class fields; `type` comes from
the `Packet` base class and is stamped `types.VERSION` by the
constructor). -/
structure VersionPacket where
  type : Nat
  version : Nat
  services : Nat
  time : Nat
  remote : NetAddress
  nonce : List Nat
  agent : String
  height : Nat
  noRelay : Bool
deriving DecidableEq

/-- `VersionPacket#getSize` (packets.js lines 248-258). -/
def VersionPacket.getSize (v : VersionPacket) : Nat :=
  0 + 20 + v.remote.getSize + 8 + 1 + v.agent.length + 5

/-- `VersionPacket#write` (packets.js lines 266-278): version(4) ·
services(4) · reserved(4,zero) · time(8) · remote(88) · nonce(8) ·
agent-length(1) · agent(ascii) · height(4) · no-relay(1). -/
def VersionPacket.write (v : VersionPacket) : List Nat :=
  natToLE 4 v.version ++ natToLE 4 v.services ++ natToLE 4 0 ++
  natToLE 8 v.time ++ NetAddress.write v.remote ++ v.nonce ++
  [v.agent.length % 256] ++ asciiEncode v.agent ++ natToLE 4 v.height ++
  [if v.noRelay then 1 else 0]

/-- `VersionPacket#read` (packets.js lines 286-302): reads every field in
write order; the packet's `type` is not on the wire and keeps the value
the constructor stamped, passed here as `type`. -/
def VersionPacket.read (ip : IPLib) (type : Nat) (data : List Nat) :
    Option (VersionPacket × List Nat) := do
  let (version, r) ← readU32 data
  let (services, r) ← readU32 r
  let (_, r) ← readU32 r
  let (time, r) ← readU64 r
  let (remote, r) ← NetAddress.read ip r
  let (nonce, r) ← readBytesN 8 r
  let (alen, r) ← readU8 r
  let (abytes, r) ← readBytesN alen r
  let (height, r) ← readU32 r
  let (flag, r) ← readU8 r
  pure ({ type, version, services, time, remote, nonce,
          agent := asciiDecode abytes, height, noRelay := flag == 1 }, r)

/-- `VersionPacket.decode` (bio.Struct): construct a fresh packet — whose
constructor stamps `type = types.VERSION = 0` — and `read` into it; every
other constructor default is overwritten by `read`. -/
def VersionPacket.decode (ip : IPLib) (data : List Nat) : Option VersionPacket :=
  (VersionPacket.read ip 0 data).map (fun p => p.1)

/-! Helper lemmas about the byte primitives. -/

theorem natToLE_length (k n : Nat) : (natToLE k n).length = k := by
  induction k generalizing n with
  | zero => rfl
  | succ k ih => simp [natToLE, ih]

theorem leToNat_natToLE (k : Nat) : ∀ n, leToNat (natToLE k n) = n % 256 ^ k := by
  induction k with
  | zero => intro n; simp [natToLE, leToNat, Nat.mod_one]
  | succ k ih =>
    intro n
    have hstep : leToNat (natToLE (k + 1) n)
        = n % 256 + 256 * leToNat (natToLE k (n / 256)) := rfl
    rw [hstep, ih, pow_succ, mul_comm (256 ^ k) 256, Nat.mod_mul]

theorem readBytesN_app (l r : List Nat) {n : Nat} (h : l.length = n) :
    readBytesN n (l ++ r) = some (l, r) := by
  subst h
  simp [readBytesN]

theorem readU8_cons (b : Nat) (r : List Nat) : readU8 (b :: r) = some (b, r) := rfl

theorem readU16_app (n : Nat) (r : List Nat) (h : n < 2 ^ 16) :
    readU16 (natToLE 2 n ++ r) = some (n, r) := by
  have hb : n < 65536 := by omega
  simp [readU16, readBytesN_app _ _ (natToLE_length 2 n), leToNat_natToLE,
        Nat.mod_eq_of_lt, hb]

theorem readU32_app (n : Nat) (r : List Nat) (h : n < 2 ^ 32) :
    readU32 (natToLE 4 n ++ r) = some (n, r) := by
  have hb : n < 4294967296 := by omega
  simp [readU32, readBytesN_app _ _ (natToLE_length 4 n), leToNat_natToLE,
        Nat.mod_eq_of_lt, hb]

theorem readU64_app (n : Nat) (r : List Nat) (h : n < 2 ^ 64) :
    readU64 (natToLE 8 n ++ r) = some (n, r) := by
  have hb : n < 18446744073709551616 := by omega
  simp [readU64, readBytesN_app _ _ (natToLE_length 8 n), leToNat_natToLE,
        Nat.mod_eq_of_lt, hb]

theorem seekN_app (l r : List Nat) {n : Nat} (h : l.length = n) :
    seekN n (l ++ r) = some r := by
  subst h
  simp [seekN, readBytesN]

theorem seekN_replicate (n c : Nat) (r : List Nat) :
    seekN n (List.replicate n c ++ r) = some r :=
  seekN_app _ _ (List.length_replicate n c)

theorem char_round (c : Char) (h : c.toNat < 128) :
    Char.ofNat (c.toNat % 256 % 128) = c := by
  rw [Nat.mod_eq_of_lt (lt_trans h (by norm_num)), Nat.mod_eq_of_lt h,
      Char.ofNat_toNat]

theorem list_char_round (l : List Char) (h : ∀ c ∈ l, c.toNat < 128) :
    l.map (fun c => Char.ofNat (c.toNat % 256 % 128)) = l := by
  induction l with
  | nil => rfl
  | cons c t ih =>
    simp only [List.map_cons, List.cons.injEq]
    exact ⟨char_round c (h c (by simp)), ih (fun d hd => h d (by simp [hd]))⟩

theorem asciiEncode_length (s : String) : (asciiEncode s).length = s.length := by
  simp only [asciiEncode, List.length_map]
  rfl

theorem asciiDecode_encode (s : String) (h : ∀ c ∈ s.data, c.toNat < 128) :
    asciiDecode (asciiEncode s) = s := by
  cases s with
  | mk data =>
    show String.mk ((data.map _).map _) = String.mk data
    rw [List.map_map]
    exact congrArg String.mk (list_char_round data h)

theorem hexVal_hexDig : ∀ n, n < 16 → hexVal (hexDig n) = some n := by decide

theorem hexDecode_encode (b : List Nat) (h : ∀ x ∈ b, x < 256) :
    hexDecode (hexEncode b) = b := by
  show hexDecodeChars (hexEncodeChars b) = b
  induction b with
  | nil => rfl
  | cons x t ih =>
    have hx : x < 256 := h x (by simp)
    have h1 : x % 256 / 16 < 16 := by omega
    have h2 : x % 16 < 16 := by omega
    simp only [hexEncodeChars, hexDecodeChars, hexVal_hexDig _ h1,
               hexVal_hexDig _ h2]
    have hv : 16 * (x % 256 / 16) + x % 16 = x := by omega
    rw [hv, ih (fun y hy => h y (by simp [hy]))]

theorem seekN_zeros20 (r : List Nat) :
    seekN 20 (0 :: 0 :: 0 :: 0 :: 0 :: 0 :: 0 :: 0 :: 0 :: 0 :: 0 :: 0 :: 0 ::
              0 :: 0 :: 0 :: 0 :: 0 :: 0 :: 0 :: r) = some r :=
  seekN_app [0, 0, 0, 0, 0, 0, 0, 0, 0, 0, 0, 0, 0, 0, 0, 0, 0, 0, 0, 0] r rfl

/-- Reading back a written NetAddress from the front of a byte stream
recovers the record exactly (validity: 16-byte raw, 33-byte key, in-range
numeric fields, host and hostname derived from raw/port/key as every
constructor and mutator guarantees). -/
theorem netAddress_read_write (ip : IPLib) (a : NetAddress) (rest : List Nat)
    (h16 : a.raw.length = 16) (h33 : a.key.length = 33)
    (hport : a.port < 2 ^ 16) (hsvc : a.services < 2 ^ 32)
    (htime : a.time < 2 ^ 53)
    (hhost : a.host = ip.toString a.raw)
    (hhn : a.hostname = ip.toHostname a.host a.port a.key) :
    NetAddress.read ip (NetAddress.write a ++ rest) = some (a, rest) := by
  have htime64 : a.time < 2 ^ 64 := by omega
  have h0 : (0 : Nat) < 2 ^ 32 := by norm_num
  simp [NetAddress.write, List.append_assoc, NetAddress.read,
        readU64_app _ _ htime64, readU32_app _ _ hsvc, readU32_app _ _ h0,
        readU8_cons, readBytesN_app _ _ h16, seekN_replicate, seekN_zeros20,
        readU16_app _ _ hport, readBytesN_app _ _ h33]
  rw [← hhost, ← hhn]

theorem beq_flag (b : Bool) : ((if b then 1 else 0 : Nat) == 1) = b := by
  cases b <;> rfl

/-- Reading back a written VersionPacket from the front of a byte stream
recovers every field; the packet's `type` is not serialized, so the
result carries the type `t` of the packet being read into. -/
theorem versionPacket_read_write (ip : IPLib) (v : VersionPacket)
    (rest : List Nat) (t : Nat)
    (hver : v.version < 2 ^ 32) (hsvc : v.services < 2 ^ 32)
    (htime : v.time < 2 ^ 53) (hnonce : v.nonce.length = 8)
    (hagent : v.agent.length ≤ 255)
    (hascii : ∀ c ∈ v.agent.data, c.toNat < 128)
    (hheight : v.height < 2 ^ 32)
    (hr16 : v.remote.raw.length = 16) (hr33 : v.remote.key.length = 33)
    (hrport : v.remote.port < 2 ^ 16) (hrsvc : v.remote.services < 2 ^ 32)
    (hrtime : v.remote.time < 2 ^ 53)
    (hrhost : v.remote.host = ip.toString v.remote.raw)
    (hrhn : v.remote.hostname
        = ip.toHostname v.remote.host v.remote.port v.remote.key) :
    VersionPacket.read ip t (VersionPacket.write v ++ rest)
      = some ({ v with type := t }, rest) := by
  have htime64 : v.time < 2 ^ 64 := by omega
  have h0 : (0 : Nat) < 2 ^ 32 := by norm_num
  have hal : v.agent.length % 256 = v.agent.length := Nat.mod_eq_of_lt (by omega)
  have hremote := netAddress_read_write ip v.remote
    (v.nonce ++ (v.agent.length :: (asciiEncode v.agent ++
      (natToLE 4 v.height ++ ((if v.noRelay then 1 else 0) :: rest)))))
    hr16 hr33 hrport hrsvc hrtime hrhost hrhn
  simp [VersionPacket.write, List.append_assoc, VersionPacket.read,
        readU32_app _ _ hver, readU32_app _ _ hsvc, readU32_app _ _ h0,
        readU64_app _ _ htime64, hremote, readBytesN_app _ _ hnonce,
        readU8_cons, hal, readBytesN_app _ _ (asciiEncode_length v.agent),
        readU32_app _ _ hheight, asciiDecode_encode _ hascii, beq_flag]

/-! Concrete collaborator instances and records used by witnesses and
counterexamples. -/

/-- A concrete IP collaborator whose classifier reports a plain IPv4
address (used to instantiate universally quantified results). -/
def ip0 : IPLib :=
  { toBuffer := fun _ => List.replicate 16 0
    toString := fun _ => "0.0.0.0"
    toHostname := fun h _ _ => h
    isIPv4 := fun _ => true
    isRFC3964 := fun _ => false
    isRFC4380 := fun _ => false
    isRFC6052 := fun _ => false
    isRFC6145 := fun _ => false
    isLocal := fun _ => false
    isRoutable := fun _ => true
    isOnion := fun _ => false
    ZERO_IPV4 := List.replicate 16 0
    networks := { NONE := 0, INET4 := 1, INET6 := 2, ONION := 3 } }

/-- A concrete IP collaborator whose classifier reports an RFC4380
(Teredo) address. -/
def ipT : IPLib :=
  { toBuffer := fun _ => List.replicate 16 0
    toString := fun _ => "0.0.0.0"
    toHostname := fun h _ _ => h
    isIPv4 := fun _ => false
    isRFC3964 := fun _ => false
    isRFC4380 := fun _ => true
    isRFC6052 := fun _ => false
    isRFC6145 := fun _ => false
    isLocal := fun _ => false
    isRoutable := fun _ => true
    isOnion := fun _ => false
    ZERO_IPV4 := List.replicate 16 0
    networks := { NONE := 0, INET4 := 1, INET6 := 2, ONION := 3 } }

/-- A valid concrete record (fields mirror the spec's §8 example where
`ip0`'s toy conversions allow). -/
def addr0 : NetAddress :=
  { host := "0.0.0.0", port := 8333, services := 1, time := 1000000,
    hostname := "0.0.0.0", raw := List.replicate 16 0, key := ZERO_KEY }

/-- `addr0` after `setPort 9999` (hostname recomputed by `ip0`). -/
def addr9999 : NetAddress :=
  { host := "0.0.0.0", port := 9999, services := 1, time := 1000000,
    hostname := "0.0.0.0", raw := List.replicate 16 0, key := ZERO_KEY }

/-- A record whose raw address carries 0x01/0x02 at offsets 12/13 (the
Teredo XOR example). -/
def addrT : NetAddress :=
  { host := "0.0.0.0", port := 0, services := 0, time := 0,
    hostname := "0.0.0.0",
    raw := [0, 0, 0, 0, 0, 0, 0, 0, 0, 0, 0, 0, 1, 2, 0, 0],
    key := ZERO_KEY }

/-- A valid record whose u64 discovery time does not fit in 32 bits. -/
def addrBigTime : NetAddress :=
  { host := "0.0.0.0", port := 0, services := 0, time := 4294967296,
    hostname := "0.0.0.0", raw := List.replicate 16 0, key := ZERO_KEY }

/-- The spec's §8 example version packet, adapted to `ip0`'s toy string
conversions. -/
def v0 : VersionPacket :=
  { type := 0, version := 70015, services := 1, time := 1000000,
    remote := addr0, nonce := List.replicate 8 0, agent := "test-agent",
    height := 42, noRelay := true }

/-- A JSON object carrying a present key of 2 (not 33) bytes. -/
def jsonShortKey : JSObj :=
  { host := .str "0.0.0.0", port := .num 0, services := .num 0,
    time := .num 0, key := .str "aabb" }

/-- The record `fromJSON` builds from `jsonShortKey`. -/
def addrShortKey : NetAddress :=
  { host := "0.0.0.0", port := 0, services := 0, time := 0,
    hostname := "0.0.0.0", raw := List.replicate 16 0, key := [0xaa, 0xbb] }

/-! Claim theorems. -/

/-- C5 counterexample: the registry does not consist of 32 variants with
codes 0-31: it has 33 entries and binds "DATA" to code 32. -/
theorem types_not_32 : types.length ≠ 32 ∧ types.lookup "DATA" = some 32 := by
  decide

/-- C5 (amended): the packet type registry consists of exactly 33
symbolic variants bound to unique codes 0-32, and the name-to-code and
code-to-name mappings are mutually inverse: for every index i in 0..32,
codeOf (nameOf i) = i, and for every registered pair, nameOf (codeOf n)
= n. -/
theorem types_bijection33 :
    types.length = 33 ∧ typesByVal.length = 33 ∧
    (∀ i, i < 33 → (nameOf i).bind codeOf = some i) ∧
    (∀ p ∈ types, nameOf p.2 = some p.1) := by
  decide

/-- Witness for C5's amended bijection at index 32 and entry
("DATA", 32). -/
theorem types_bijection33_inst :
    (nameOf 32).bind codeOf = some 32 ∧ nameOf 32 = some "DATA" :=
  ⟨types_bijection33.2.2.1 32 (by decide),
   types_bijection33.2.2.2 ("DATA", 32) (by decide)⟩

/-- C6: the `common` object of packets.js defines only PROTOCOL_VERSION
and LOCAL_SERVICES; the `common.ZERO_NONCE` and `common.USER_AGENT`
properties the VersionPacket constructor assigns to `nonce` and `agent`
do not exist (so the claimed zero-nonce and user-agent defaults are
`undefined` in the code). -/
theorem common_missing_defaults :
    common.lookup "ZERO_NONCE" = none ∧ common.lookup "USER_AGENT" = none ∧
    common.lookup "PROTOCOL_VERSION" = some 70015 ∧
    common.lookup "LOCAL_SERVICES" = some 0 := by
  decide

/-- C1: for every valid VersionPacket (type VERSION, u32/u53 numeric
fields, 8-byte nonce, ASCII agent of at most 255 bytes, valid embedded
record) and every valid NetAddress record (16-byte raw, 33-byte key,
in-range fields, host/hostname derived), decode (write v) reproduces the
instance in every semantically meaningful field (here: full structural
equality; the reserved wire words are written as zero and never stored). -/
theorem decode_write_roundTrip (ip : IPLib) (v : VersionPacket) (a : NetAddress)
    (htype : v.type = 0)
    (hver : v.version < 2 ^ 32) (hsvc : v.services < 2 ^ 32)
    (htime : v.time < 2 ^ 53) (hnonce : v.nonce.length = 8)
    (hagent : v.agent.length ≤ 255)
    (hascii : ∀ c ∈ v.agent.data, c.toNat < 128)
    (hheight : v.height < 2 ^ 32)
    (hr16 : v.remote.raw.length = 16) (hr33 : v.remote.key.length = 33)
    (hrport : v.remote.port < 2 ^ 16) (hrsvc : v.remote.services < 2 ^ 32)
    (hrtime : v.remote.time < 2 ^ 53)
    (hrhost : v.remote.host = ip.toString v.remote.raw)
    (hrhn : v.remote.hostname
        = ip.toHostname v.remote.host v.remote.port v.remote.key)
    (ha16 : a.raw.length = 16) (ha33 : a.key.length = 33)
    (haport : a.port < 2 ^ 16) (hasvc : a.services < 2 ^ 32)
    (hatime : a.time < 2 ^ 53)
    (hahost : a.host = ip.toString a.raw)
    (hahn : a.hostname = ip.toHostname a.host a.port a.key) :
    VersionPacket.decode ip (VersionPacket.write v) = some v ∧
    NetAddress.decode ip (NetAddress.write a) = some a := by
  constructor
  · have h := versionPacket_read_write ip v [] 0 hver hsvc htime hnonce hagent
      hascii hheight hr16 hr33 hrport hrsvc hrtime hrhost hrhn
    unfold VersionPacket.decode
    rw [show VersionPacket.write v = VersionPacket.write v ++ [] from
          (List.append_nil _).symm, h]
    have he : ({ v with type := 0 } : VersionPacket) = v := by rw [← htype]
    rw [he]
    rfl
  · have h := netAddress_read_write ip a [] ha16 ha33 haport hasvc hatime
      hahost hahn
    unfold NetAddress.decode
    rw [show NetAddress.write a = NetAddress.write a ++ [] from
          (List.append_nil _).symm, h]
    rfl

/-- Witness for C1's round trip at the spec's example packet `v0` and
record `addr0` under the concrete collaborator `ip0`. -/
theorem decode_write_roundTrip_inst :
    VersionPacket.decode ip0 (VersionPacket.write v0) = some v0 ∧
    NetAddress.decode ip0 (NetAddress.write addr0) = some addr0 :=
  decode_write_roundTrip ip0 v0 addr0 rfl (by decide) (by decide) (by decide)
    (by decide) (by decide) (by decide) (by decide) (by decide) (by decide)
    (by decide) (by decide) (by decide) (by decide) (by decide) (by decide)
    (by decide) (by decide) (by decide) (by decide) (by decide) (by decide)

/-- C2: on a routable, non-local address that is not IPv4/RFC6145/RFC6052
and not RFC3964 but satisfies the RFC4380 predicate, groupKey returns
exactly the 3 bytes {IPV4 tag, raw[12] XOR 0xFF, raw[13] XOR 0xFF},
bypassing the generic bit-copy; in particular raw[12]=0x01, raw[13]=0x02
gives {IPV4 tag, 0xFE, 0xFD}. -/
theorem groupKey_teredo (ip : IPLib) (a : NetAddress)
    (hL : ip.isLocal a.raw = false) (hR : ip.isRoutable a.raw = true)
    (h4 : ip.isIPv4 a.raw = false) (h6145 : ip.isRFC6145 a.raw = false)
    (h6052 : ip.isRFC6052 a.raw = false) (h3964 : ip.isRFC3964 a.raw = false)
    (h4380 : ip.isRFC4380 a.raw = true) :
    groupKey ip a = [ip.networks.INET4, a.raw.getD 12 0 ^^^ 0xff,
                     a.raw.getD 13 0 ^^^ 0xff] ∧
    (groupKey ip a).length = 3 ∧
    (a.raw.getD 12 0 = 0x01 → a.raw.getD 13 0 = 0x02 →
      groupKey ip a = [ip.networks.INET4, 0xfe, 0xfd]) := by
  have hg : groupKey ip a = [ip.networks.INET4, a.raw.getD 12 0 ^^^ 0xff,
      a.raw.getD 13 0 ^^^ 0xff] := by
    simp [groupKey, hL, hR, h4, h6145, h6052, h3964, h4380]
  refine ⟨hg, by rw [hg]; rfl, ?_⟩
  intro h12 h13
  have e1 : (1 ^^^ 255 : Nat) = 254 := by decide
  have e2 : (2 ^^^ 255 : Nat) = 253 := by decide
  rw [hg, h12, h13, e1, e2]

/-- Witness for C2 at the concrete Teredo collaborator `ipT` and the
record `addrT` with raw[12]=1, raw[13]=2. -/
theorem groupKey_teredo_inst : groupKey ipT addrT = [1, 0xfe, 0xfd] :=
  (groupKey_teredo ipT addrT rfl rfl rfl rfl rfl rfl rfl).2.2 rfl rfl

/-- C3: every non-Teredo branch of groupKey produces the type tag
followed by floor(bits/8) bytes copied from the branch offset and, when
bits is not a multiple of 8, one final byte with the low unclassified
bits forced to 1 (OR 0x0f for the 4-bit tails); output length is
1 + ceil(bits/8): 1 byte for local/unroutable (0 bits), 3 for the 16-bit
IPv4-style branches, 2 for onion (4 bits), 6 for the 36-bit provider
block, 5 for the 32-bit default. -/
theorem groupKey_generic (ip : IPLib) (a : NetAddress)
    (_h16 : a.raw.length = 16) :
    (ip.isLocal a.raw = true → groupKey ip a = [255]) ∧
    (ip.isLocal a.raw = false → ip.isRoutable a.raw = false →
      groupKey ip a = [ip.networks.NONE]) ∧
    (ip.isLocal a.raw = false → ip.isRoutable a.raw = true →
      (ip.isIPv4 a.raw || ip.isRFC6145 a.raw || ip.isRFC6052 a.raw) = true →
      groupKey ip a
        = [ip.networks.INET4, a.raw.getD 12 0, a.raw.getD 13 0]) ∧
    (ip.isLocal a.raw = false → ip.isRoutable a.raw = true →
      ip.isIPv4 a.raw = false → ip.isRFC6145 a.raw = false →
      ip.isRFC6052 a.raw = false → ip.isRFC3964 a.raw = true →
      groupKey ip a = [ip.networks.INET4, a.raw.getD 2 0, a.raw.getD 3 0]) ∧
    (ip.isLocal a.raw = false → ip.isRoutable a.raw = true →
      ip.isIPv4 a.raw = false → ip.isRFC6145 a.raw = false →
      ip.isRFC6052 a.raw = false → ip.isRFC3964 a.raw = false →
      ip.isRFC4380 a.raw = false → ip.isOnion a.raw = true →
      groupKey ip a = [ip.networks.ONION, a.raw.getD 6 0 ||| 0x0f]) ∧
    (ip.isLocal a.raw = false → ip.isRoutable a.raw = true →
      ip.isIPv4 a.raw = false → ip.isRFC6145 a.raw = false →
      ip.isRFC6052 a.raw = false → ip.isRFC3964 a.raw = false →
      ip.isRFC4380 a.raw = false → ip.isOnion a.raw = false →
      a.raw.getD 0 0 = 0x20 → a.raw.getD 1 0 = 0x01 →
      a.raw.getD 2 0 = 0x04 → a.raw.getD 3 0 = 0x70 →
      groupKey ip a
        = [ip.networks.INET6, 0x20, 0x01, 0x04, 0x70,
           a.raw.getD 4 0 ||| 0x0f]) ∧
    (ip.isLocal a.raw = false → ip.isRoutable a.raw = true →
      ip.isIPv4 a.raw = false → ip.isRFC6145 a.raw = false →
      ip.isRFC6052 a.raw = false → ip.isRFC3964 a.raw = false →
      ip.isRFC4380 a.raw = false → ip.isOnion a.raw = false →
      (a.raw.getD 0 0 == 0x20 && a.raw.getD 1 0 == 0x01 &&
       a.raw.getD 2 0 == 0x04 && a.raw.getD 3 0 == 0x70) = false →
      groupKey ip a
        = [ip.networks.INET6, a.raw.getD 0 0, a.raw.getD 1 0,
           a.raw.getD 2 0, a.raw.getD 3 0]) := by
  refine ⟨?_, ?_, ?_, ?_, ?_, ?_, ?_⟩
  · intro hL
    simp [groupKey, hL, groupOut, groupBits, groupBitsGo]
  · intro hL hR
    simp [groupKey, hL, hR, groupOut, groupBits, groupBitsGo]
  · intro hL hR h4
    simp [groupKey, hL, hR, h4, groupOut, groupBits, groupBitsGo]
  · intro hL hR h4 h6145 h6052 h3964
    simp [groupKey, hL, hR, h4, h6145, h6052, h3964, groupOut, groupBits,
          groupBitsGo]
  · intro hL hR h4 h6145 h6052 h3964 h4380 hO
    simp [groupKey, hL, hR, h4, h6145, h6052, h3964, h4380, hO, groupOut,
          groupBits, groupBitsGo]
  · intro hL hR h4 h6145 h6052 h3964 h4380 hO h0 h1 h2 h3
    simp at h0 h1 h2 h3
    simp [groupKey, hL, hR, h4, h6145, h6052, h3964, h4380, hO, h0, h1, h2,
          h3, groupOut, groupBits, groupBitsGo]
  · intro hL hR h4 h6145 h6052 h3964 h4380 hO hpre
    simp at hpre
    simp [groupKey, hL, hR, h4, h6145, h6052, h3964, h4380, hO, hpre,
          groupOut, groupBits, groupBitsGo]
    exact hpre

/-- Witness for C3 at `ip0` (IPv4 branch) and `addr0`: a 3-byte output
copied from offset 12. -/
theorem groupKey_generic_inst : groupKey ip0 addr0 = [1, 0, 0] :=
  (groupKey_generic ip0 addr0 rfl).2.2.1 rfl rfl rfl

/-- C4: every mutator and injector re-establishes the hostname invariant
(hostname equals the collaborator's composition of the current host, port
and key) atomically with its update, and setPort changes no field other
than port and the recomputed hostname. -/
theorem hostname_invariant (ip : IPLib) (now : Nat) (a : NetAddress) :
    (∀ h : String,
      (NetAddress.setHost ip a h).hostname
        = ip.toHostname (NetAddress.setHost ip a h).host
            (NetAddress.setHost ip a h).port (NetAddress.setHost ip a h).key) ∧
    ((NetAddress.setNull ip a).hostname
        = ip.toHostname (NetAddress.setNull ip a).host
            (NetAddress.setNull ip a).port (NetAddress.setNull ip a).key) ∧
    (∀ (p : Int) (r : NetAddress), NetAddress.setPort ip a p = some r →
      r.hostname = ip.toHostname r.host r.port r.key ∧
      r.host = a.host ∧ r.services = a.services ∧ r.time = a.time ∧
      r.raw = a.raw ∧ r.key = a.key ∧ r.port = p.toNat) ∧
    (∀ (k : Option (List Nat)) (r : NetAddress),
      NetAddress.setKey ip a k = some r →
      r.hostname = ip.toHostname r.host r.port r.key) ∧
    (∀ (o : JSObj) (r : NetAddress), NetAddress.fromOptions ip a o = some r →
      r.hostname = ip.toHostname r.host r.port r.key) ∧
    (∀ (h : String) (p : Int) (k : Option (List Nat)) (r : NetAddress),
      NetAddress.fromHost ip now h p k = some r →
      r.hostname = ip.toHostname r.host r.port r.key) ∧
    (∀ (j : JSObj) (r : NetAddress), NetAddress.fromJSON ip j = some r →
      r.hostname = ip.toHostname r.host r.port r.key) ∧
    (∀ (data rest : List Nat) (r : NetAddress),
      NetAddress.read ip data = some (r, rest) →
      r.hostname = ip.toHostname r.host r.port r.key) := by
  refine ⟨fun h => rfl, rfl, ?_, ?_, ?_, ?_, ?_, ?_⟩
  · intro p r hr
    unfold NetAddress.setPort at hr
    split at hr
    · injection hr with hr
      subst hr
      exact ⟨rfl, rfl, rfl, rfl, rfl, rfl, rfl⟩
    · exact Option.noConfusion hr
  · intro k r hr
    unfold NetAddress.setKey at hr
    dsimp only at hr
    split at hr
    · injection hr with hr
      subst hr
      rfl
    · exact Option.noConfusion hr
  · intro o r hr
    unfold NetAddress.fromOptions at hr
    repeat split at hr
    all_goals first
      | exact Option.noConfusion hr
      | (injection hr with hr; subst hr; rfl)
  · intro h p k r hr
    unfold NetAddress.fromHost at hr
    split at hr
    · injection hr with hr
      subst hr
      rfl
    · exact Option.noConfusion hr
  · intro j r hr
    unfold NetAddress.fromJSON at hr
    repeat split at hr
    all_goals first
      | exact Option.noConfusion hr
      | (injection hr with hr; subst hr; rfl)
  · intro data rest r hr
    simp only [NetAddress.read, Option.bind_eq_bind, Option.bind_eq_some] at hr
    obtain ⟨⟨t, r1⟩, -, ⟨s2, r2⟩, -, ⟨s3, r3⟩, -, ⟨d4, r4⟩, -, hr⟩ := hr
    split at hr
    · simp only [Option.bind_eq_some, Option.pure_def, Option.some.injEq,
                 Prod.mk.injEq] at hr
      obtain ⟨⟨raw5, r5⟩, -, r6, -, pr, -, ⟨p7, r7⟩, -, ⟨k8, r8⟩, -, hrec, -⟩ := hr
      subst hrec
      rfl
    · simp only [Option.bind_eq_some, Option.pure_def, Option.some.injEq,
                 Prod.mk.injEq] at hr
      obtain ⟨r5, -, pr, -, ⟨p7, r7⟩, -, ⟨k8, r8⟩, -, hrec, -⟩ := hr
      subst hrec
      rfl

/-- Witness for C4's setPort conjunct: setPort 9999 on `addr0` yields
`addr9999` with hostname recomputed and every other field unchanged. -/
theorem hostname_invariant_inst :
    addr9999.hostname
      = ip0.toHostname addr9999.host addr9999.port addr9999.key ∧
    addr9999.host = addr0.host ∧ addr9999.services = addr0.services ∧
    addr9999.time = addr0.time ∧ addr9999.raw = addr0.raw ∧
    addr9999.key = addr0.key ∧ addr9999.port = (9999 : Int).toNat :=
  (hostname_invariant ip0 0 addr0).2.2.1 9999 addr9999 (by decide)

/-- C7: a VersionPacket's size() is 20 + 88 + 8 + 1 + agent.length + 5,
a NetAddress record's size() is the constant 88, and for both variants
size() equals the number of bytes write produces on the same state. -/
theorem size_eq_write_length (v : VersionPacket) (a : NetAddress)
    (hnonce : v.nonce.length = 8)
    (hr16 : v.remote.raw.length = 16) (hr33 : v.remote.key.length = 33)
    (ha16 : a.raw.length = 16) (ha33 : a.key.length = 33) :
    VersionPacket.getSize v = 20 + 88 + 8 + 1 + v.agent.length + 5 ∧
    (VersionPacket.write v).length = VersionPacket.getSize v ∧
    NetAddress.getSize a = 88 ∧
    (NetAddress.write a).length = NetAddress.getSize a := by
  refine ⟨rfl, ?_, rfl, ?_⟩
  · simp [VersionPacket.write, NetAddress.write, VersionPacket.getSize,
          NetAddress.getSize, natToLE_length, asciiEncode_length, hnonce,
          hr16, hr33]
    omega
  · simp [NetAddress.write, NetAddress.getSize, natToLE_length, ha16, ha33]

/-- Witness for C7 at the example packet `v0` and record `addr0`. -/
theorem size_eq_write_length_inst :
    VersionPacket.getSize v0 = 20 + 88 + 8 + 1 + v0.agent.length + 5 ∧
    (VersionPacket.write v0).length = VersionPacket.getSize v0 ∧
    NetAddress.getSize addr0 = 88 ∧
    (NetAddress.write addr0).length = NetAddress.getSize addr0 :=
  size_eq_write_length v0 addr0 (by decide) (by decide) (by decide)
    (by decide) (by decide)

/-- C8 counterexample: `addrBigTime` is a valid record (u64 time, 16-byte
raw, 33-byte key, derived host/hostname) but its JSON round trip fails:
fromJSON's `(time >>> 0) === time` assert rejects toJSON's output because
the time does not fit in 32 bits. -/
theorem json_roundTrip_fails_large_time :
    addrBigTime.time < 2 ^ 64 ∧ addrBigTime.raw.length = 16 ∧
    addrBigTime.key.length = 33 ∧
    addrBigTime.host = ip0.toString addrBigTime.raw ∧
    addrBigTime.hostname
      = ip0.toHostname addrBigTime.host addrBigTime.port addrBigTime.key ∧
    NetAddress.fromJSON ip0 (NetAddress.getJSON addrBigTime) = none := by
  decide

/-- C8 (amended): for every valid record whose services and time also fit
in 32 bits (fromJSON's u32 asserts), fromJSON (toJSON r) succeeds and
equals r in host, port, services, time, key and the derived hostname (raw
is recomputed from the host string); the JSON form carries the key
hex-encoded. -/
theorem json_roundTrip (ip : IPLib) (a : NetAddress)
    (hport : a.port ≤ 65535) (hsvc : a.services < 2 ^ 32)
    (htime : a.time < 2 ^ 32) (hkey : ∀ x ∈ a.key, x < 256)
    (hhn : a.hostname = ip.toHostname a.host a.port a.key) :
    NetAddress.fromJSON ip (NetAddress.getJSON a)
      = some { a with raw := ip.toBuffer a.host } := by
  unfold NetAddress.getJSON NetAddress.fromJSON
  dsimp only
  have hc : (0 : Int) ≤ (a.port : Int) ∧ (a.port : Int) ≤ 65535 ∧
      (0 : Int) ≤ (a.services : Int) ∧ (a.services : Int) < 2 ^ 32 ∧
      (0 : Int) ≤ (a.time : Int) ∧ (a.time : Int) < 2 ^ 32 := by
    refine ⟨by omega, by exact_mod_cast hport, by omega,
            by exact_mod_cast hsvc, by omega, by exact_mod_cast htime⟩
  rw [if_pos hc, hexDecode_encode _ hkey]
  simp only [Int.toNat_natCast]
  rw [← hhn]

/-- Witness for C8's amended round trip at `ip0` and `addr0`. -/
theorem json_roundTrip_inst :
    NetAddress.fromJSON ip0 (NetAddress.getJSON addr0)
      = some { addr0 with raw := ip0.toBuffer addr0.host } :=
  json_roundTrip ip0 addr0 (by decide) (by decide) (by decide) (by decide)
    (by decide)

/-- C9 counterexample: fromJSON accepts a JSON object whose key is
present (non-sentinel) but decodes to 2 ≠ 33 bytes — no assertion is
raised and the returned record holds the short key. -/
theorem fromJSON_accepts_short_key :
    NetAddress.fromJSON ip0 jsonShortKey = some addrShortKey ∧
    addrShortKey.key.length = 2 ∧ addrShortKey.hasKey = true := by
  decide

/-- C9 (amended): construction and mutation from caller-supplied values
fail fatally (no record is returned) on a non-string host, an
out-of-range or non-numeric port, and — for fromOptions and setKey — a
present key that is not a 33-byte buffer; fromJSON validates its port,
services and time ranges and that the key field is a string (and its
host must be a string to satisfy the collaborator's own precondition),
but it does not validate the decoded key's length. -/
theorem validation_eager (ip : IPLib) (a : NetAddress) :
    (∀ o : JSObj, (∀ s, o.host ≠ JSVal.str s) →
      NetAddress.fromOptions ip a o = none) ∧
    (∀ o : JSObj, (∀ p : Int, o.port = JSVal.num p → ¬(0 ≤ p ∧ p ≤ 65535)) →
      NetAddress.fromOptions ip a o = none) ∧
    (∀ o : JSObj, o.key.truthy = true →
      (∀ b, o.key = JSVal.buf b → b.length ≠ 33) →
      NetAddress.fromOptions ip a o = none) ∧
    (∀ p : Int, ¬(0 ≤ p ∧ p ≤ 65535) →
      NetAddress.setPort ip a p = none) ∧
    (∀ k : List Nat, k.length ≠ 33 →
      NetAddress.setKey ip a (some k) = none) ∧
    (∀ j : JSObj, (∀ p : Int, j.port = JSVal.num p → ¬(0 ≤ p ∧ p ≤ 65535)) →
      NetAddress.fromJSON ip j = none) ∧
    (∀ j : JSObj, (∀ s : Int, j.services = JSVal.num s →
        ¬(0 ≤ s ∧ s < 2 ^ 32)) →
      NetAddress.fromJSON ip j = none) ∧
    (∀ j : JSObj, (∀ t : Int, j.time = JSVal.num t → ¬(0 ≤ t ∧ t < 2 ^ 32)) →
      NetAddress.fromJSON ip j = none) ∧
    (∀ j : JSObj, (∀ s, j.key ≠ JSVal.str s) →
      NetAddress.fromJSON ip j = none) ∧
    (∀ j : JSObj, (∀ s, j.host ≠ JSVal.str s) →
      NetAddress.fromJSON ip j = none) := by
  refine ⟨?_, ?_, ?_, ?_, ?_, ?_, ?_, ?_, ?_, ?_⟩
  · intro o hstr
    unfold NetAddress.fromOptions
    cases ho : o.host <;> cases hp : o.port <;>
      first
      | rfl
      | exact absurd ho (hstr _)
  · intro o hp
    unfold NetAddress.fromOptions
    cases ho : o.host <;> cases hpo : o.port <;> try rfl
    exact if_neg (hp _ hpo)
  · intro o htr hb
    have hk : optKeyField a.key o.key = none := by
      unfold optKeyField
      rw [htr, if_pos rfl]
      cases hko : o.key <;> try rfl
      exact if_neg (hb _ hko)
    unfold NetAddress.fromOptions
    cases ho : o.host <;> cases hpo : o.port <;> try rfl
    dsimp only
    rw [hk]
    split
    · cases optNumField a.services o.services <;>
        cases optNumField a.time o.time <;> rfl
    · rfl
  · intro p hp
    unfold NetAddress.setPort
    exact if_neg hp
  · intro k hk
    unfold NetAddress.setKey
    dsimp only
    exact if_neg (by simpa using hk)
  · intro j hp
    unfold NetAddress.fromJSON
    cases hpo : j.port <;> cases hs : j.services <;> cases ht : j.time <;>
      cases hkk : j.key <;> try rfl
    exact if_neg (fun hc => hp _ hpo ⟨hc.1, hc.2.1⟩)
  · intro j hs
    unfold NetAddress.fromJSON
    cases hpo : j.port <;> cases hso : j.services <;> cases ht : j.time <;>
      cases hkk : j.key <;> try rfl
    exact if_neg (fun hc => hs _ hso ⟨hc.2.2.1, hc.2.2.2.1⟩)
  · intro j ht
    unfold NetAddress.fromJSON
    cases hpo : j.port <;> cases hso : j.services <;> cases hto : j.time <;>
      cases hkk : j.key <;> try rfl
    exact if_neg (fun hc => ht _ hto ⟨hc.2.2.2.2.1, hc.2.2.2.2.2⟩)
  · intro j hkey
    unfold NetAddress.fromJSON
    cases hpo : j.port <;> cases hso : j.services <;> cases hto : j.time <;>
      cases hkk : j.key <;> try rfl
    exact absurd hkk (hkey _)
  · intro j hstr
    unfold NetAddress.fromJSON
    cases hpo : j.port <;> cases hso : j.services <;> cases hto : j.time <;>
      cases hkk : j.key <;> try rfl
    dsimp only
    cases hh : j.host <;>
      first
      | exact absurd hh (hstr _)
      | (split <;> rfl)

/-- Witness for C9's amended validation: setPort with the out-of-range
port 70000 fails. -/
theorem validation_eager_inst : NetAddress.setPort ip0 addr0 70000 = none :=
  (validation_eager ip0 addr0).2.2.2.1 70000 (by decide)

theorem bufCompare_eq_zero : ∀ x y : List Nat, bufCompare x y = 0 ↔ x = y := by
  intro x
  induction x with
  | nil =>
    intro y
    cases y with
    | nil => simp [bufCompare]
    | cons b bs =>
      simp only [bufCompare]
      constructor
      · intro h; exact absurd h (by decide)
      · intro h; exact List.noConfusion h
  | cons a as ih =>
    intro y
    cases y with
    | nil =>
      simp only [bufCompare]
      constructor
      · intro h; exact absurd h (by decide)
      · intro h; exact List.noConfusion h
    | cons b bs =>
      simp only [bufCompare]
      constructor
      · intro h
        split_ifs at h with h1 h2
        all_goals
          first
          | exact absurd h (by decide)
          | (have hab : a = b := by omega
             have has : as = bs := (ih bs).mp h
             rw [hab, has])
      · intro h
        injection h with h1 h2
        subst h1
        subst h2
        rw [if_neg (lt_irrefl a), if_neg (lt_irrefl a)]
        exact (ih as).mpr rfl

/-- C10: equality of records holds exactly when the 16-byte raw addresses
are byte-identical and the ports are equal; compare orders first by
lexicographic comparison of raw and then by port difference; services,
time, key, host and hostname play no role. -/
theorem equal_compare_raw_port (a b : NetAddress) :
    (NetAddress.equal a b = true ↔ a.raw = b.raw ∧ a.port = b.port) ∧
    (a.raw = b.raw →
      NetAddress.compare a b = (a.port : Int) - (b.port : Int)) ∧
    (a.raw ≠ b.raw → NetAddress.compare a b = bufCompare a.raw b.raw) ∧
    (∀ s t k h hn s' t' k' h' hn',
      NetAddress.equal
        { a with services := s, time := t, key := k, host := h,
                 hostname := hn }
        { b with services := s', time := t', key := k', host := h',
                 hostname := hn' }
      = NetAddress.equal a b) := by
  refine ⟨?_, ?_, ?_, fun s t k h hn s' t' k' h' hn' => rfl⟩
  · unfold NetAddress.equal NetAddress.compare
    by_cases hraw : a.raw = b.raw
    · have h0 : bufCompare a.raw b.raw = 0 := (bufCompare_eq_zero _ _).mpr hraw
      rw [h0]
      simp [hraw]
      omega
    · have h0 : bufCompare a.raw b.raw ≠ 0 :=
        fun hc => hraw ((bufCompare_eq_zero _ _).mp hc)
      rw [if_pos h0]
      simp [hraw]
      exact h0
  · intro hraw
    unfold NetAddress.compare
    rw [if_neg (by simp [(bufCompare_eq_zero a.raw b.raw).mpr hraw])]
  · intro hraw
    unfold NetAddress.compare
    rw [if_pos (fun hc => hraw ((bufCompare_eq_zero _ _).mp hc))]

/-- Witness for C10 at `addr0` compared with itself: identical raw and
port give compare = port difference (zero). -/
theorem equal_compare_raw_port_inst :
    NetAddress.compare addr0 addr0
      = (addr0.port : Int) - (addr0.port : Int) :=
  (equal_compare_raw_port addr0 addr0).2.1 rfl
